import Mathlib

/-!
Verification of the heart-disease prediction service
(`api/main.py`, `src/inference.py`, `src/preprocess.py`).

The request pipeline is shallowly embedded: Prometheus metrics become an
explicit `Metrics` record threaded through the handler, the joblib-loaded
preprocessor and model become `Except`-returning functions (an `Except.error`
models a raised Python exception), numpy row/element indexing becomes `npIdx`
with the negative-wrap semantics of Python, and the JSON dict returned by the
endpoint becomes an association list of key/value pairs.  Floating-point
probabilities are modelled by exact rationals.  Calls into the artifacts are
additionally recorded in a ghost `ArtifactCall` trace so that "the model was
not invoked" is a provable statement.
-/

set_option autoImplicit false

/-- A JSON-like value appearing in a response dict of `api/main.py`. -/
inductive JValue where
  | str : String → JValue
  | int : Int → JValue
  | rat : ℚ → JValue
deriving DecidableEq

/-- A response body: the Python dict literal returned by the endpoint,
as an ordered association list. -/
abbrev Dict := List (String × JValue)

/-- The keys of a response dict, in order. -/
def keysOf (d : Dict) : List String := d.map Prod.fst

/-- The Pydantic input model `HeartDiseaseInput` of `api/main.py`:
13 required numeric fields, all integers except `oldpeak : float`. -/
structure HeartDiseaseInput where
  age : Int
  sex : Int
  cp : Int
  trestbps : Int
  chol : Int
  fbs : Int
  restecg : Int
  thalach : Int
  exang : Int
  oldpeak : ℚ
  slope : Int
  ca : Int
  thal : Int
deriving DecidableEq

/-- The single row of `pd.DataFrame([data.dict()])`: the 13 field values in
declaration order. -/
def HeartDiseaseInput.toRow (d : HeartDiseaseInput) : List ℚ :=
  [(d.age : ℚ), (d.sex : ℚ), (d.cp : ℚ), (d.trestbps : ℚ), (d.chol : ℚ),
   (d.fbs : ℚ), (d.restecg : ℚ), (d.thalach : ℚ), (d.exang : ℚ), d.oldpeak,
   (d.slope : ℚ), (d.ca : ℚ), (d.thal : ℚ)]

/-- The Prometheus metric state of `api/main.py`.  Counter increments with a
label are recorded by consing the label; histogram observations by consing
the observed value. -/
structure Metrics where
  /-- `heart_disease_predictions_total`, partitioned by `prediction_label`:
  the list of labels recorded, newest first. -/
  predictionCounter : List String
  /-- `heart_disease_prediction_confidence`: observed values, newest first. -/
  confidenceObs : List ℚ
  /-- `heart_disease_prediction_errors_total{error_type="model_not_loaded"}`. -/
  errModelNotLoaded : Nat
  /-- `heart_disease_prediction_errors_total{error_type="preprocessing_error"}`. -/
  errPreprocessing : Nat
  /-- `heart_disease_prediction_errors_total{error_type="prediction_error"}`. -/
  errPrediction : Nat
  /-- `heart_disease_active_requests` gauge. -/
  activeRequests : Int
  /-- `heart_disease_model_loaded` gauge. -/
  modelLoadStatus : Int
deriving DecidableEq

/-- A fitted preprocessor artifact: `transform` on a feature matrix, which may
raise (modelled by `Except.error` carrying the exception message). -/
abbrev Preprocessor := List (List ℚ) → Except String (List (List ℚ))

/-- A fitted classifier artifact exposing `predict` and `predict_proba`;
either call may raise. -/
structure Model where
  predict : List (List ℚ) → Except String (List Int)
  predict_proba : List (List ℚ) → Except String (List (List ℚ))

/-- Ghost record of a call into one of the artifacts. -/
inductive ArtifactCall where
  | transformCall
  | predictCall
  | probaCall
deriving DecidableEq

/-- Numpy index wrapping: a negative Python index counts from the end. -/
def npWrap (n : Nat) (i : Int) : Int := if i < 0 then i + (n : Int) else i

/-- Numpy-style indexing of a row by a (possibly negative) Python int:
negative indices wrap from the end, out-of-range raises `IndexError`. -/
def npIdx {α : Type} (xs : List α) (i : Int) : Except String α :=
  if h : 0 ≤ npWrap xs.length i ∧ npWrap xs.length i < (xs.length : Int) then
    Except.ok (xs.get ⟨(npWrap xs.length i).toNat, by omega⟩)
  else
    Except.error ("IndexError")

/-- Numpy `.max()` over a whole matrix, as used by `src/inference.py` on
`model.predict_proba(...)`; raises on an empty array. -/
def npMaxMatrix (xss : List (List ℚ)) : Except String ℚ :=
  match xss.flatten with
  | [] => Except.error ("zero-size array reduction has no identity")
  | a :: rest => Except.ok (rest.foldl max a)

namespace Api

/-- Lines 117–122 of `api/main.py` after the two model calls returned:
`prediction_result = int(prediction[0])` and
`confidence = float(prediction_proba[0][prediction_result])`; any
`IndexError` is caught by the same `except` clause as the model calls. -/
def inferFromArrays (prediction : List Int) (prediction_proba : List (List ℚ)) :
    Except String (Int × ℚ) :=
  match npIdx prediction 0 with
  | Except.error e => Except.error e
  | Except.ok prediction_result =>
    match npIdx prediction_proba 0 with
    | Except.error e => Except.error e
    | Except.ok row =>
      match npIdx row prediction_result with
      | Except.error e => Except.error e
      | Except.ok confidence => Except.ok (prediction_result, confidence)

/-- The body of the `try:` in the `/predict` handler of `api/main.py`
(lines 97–138): readiness check, preprocessing, inference, metric updates and
response building.  Returns the HTTP status (the FastAPI default 200 on every
`return`), the response dict, the metric state after the body, and the ghost
trace of artifact calls. -/
def predictBody (preprocessor : Option Preprocessor) (model : Option Model)
    (data : HeartDiseaseInput) (m : Metrics) :
    (Nat × Dict) × Metrics × List ArtifactCall :=
  match model, preprocessor with
  | some mo, some pre =>
    let input_df := [data.toRow]
    match pre input_df with
    | Except.error e =>
        ((200, [("error", JValue.str ("Error during data preprocessing: " ++ e))]),
         { m with errPreprocessing := m.errPreprocessing + 1 },
         [ArtifactCall.transformCall])
    | Except.ok processed_input =>
      match mo.predict processed_input with
      | Except.error e =>
          ((200, [("error", JValue.str ("Error during prediction: " ++ e))]),
           { m with errPrediction := m.errPrediction + 1 },
           [ArtifactCall.transformCall, ArtifactCall.predictCall])
      | Except.ok prediction =>
        match mo.predict_proba processed_input with
        | Except.error e =>
            ((200, [("error", JValue.str ("Error during prediction: " ++ e))]),
             { m with errPrediction := m.errPrediction + 1 },
             [ArtifactCall.transformCall, ArtifactCall.predictCall,
              ArtifactCall.probaCall])
        | Except.ok prediction_proba =>
          match inferFromArrays prediction prediction_proba with
          | Except.error e =>
              ((200, [("error", JValue.str ("Error during prediction: " ++ e))]),
               { m with errPrediction := m.errPrediction + 1 },
               [ArtifactCall.transformCall, ArtifactCall.predictCall,
                ArtifactCall.probaCall])
          | Except.ok (prediction_result, confidence) =>
              ((200,
                [("prediction", JValue.str
                    (if prediction_result = 1 then ("Heart Disease")
                     else ("No Heart Disease"))),
                 ("prediction_label", JValue.int prediction_result),
                 ("confidence", JValue.rat confidence)]),
               { m with
                  predictionCounter :=
                    toString prediction_result :: m.predictionCounter,
                  confidenceObs := confidence :: m.confidenceObs },
               [ArtifactCall.transformCall, ArtifactCall.predictCall,
                ArtifactCall.probaCall])
  | _, _ =>
      ((200, [("error", JValue.str
          ("Model or preprocessor not loaded. Please check the server logs."))]),
       { m with errModelNotLoaded := m.errModelNotLoaded + 1 },
       [])

/-- The `/predict` endpoint of `api/main.py`: `active_requests.inc()`, then the
`try:` body, then `active_requests.dec()` in the `finally:`. -/
def predict (preprocessor : Option Preprocessor) (model : Option Model)
    (data : HeartDiseaseInput) (m : Metrics) :
    (Nat × Dict) × Metrics × List ArtifactCall :=
  let m1 := { m with activeRequests := m.activeRequests + 1 }
  let r := predictBody preprocessor model data m1
  (r.1, { r.2.1 with activeRequests := r.2.1.activeRequests - 1 }, r.2.2)

end Api

namespace Inference

/-- `src/inference.py` `predict`: reshape the input to one row, scale it, take
`model.predict(...)[0]`, then `model.predict_proba(...).max()`.  Exceptions
propagate to the caller (nothing is caught here). -/
def predict (model : Model) (scaler : Preprocessor) (input_data : List ℚ) :
    Except String (Int × ℚ) :=
  match scaler [input_data] with
  | Except.error e => Except.error e
  | Except.ok input_scaled =>
    match model.predict input_scaled with
    | Except.error e => Except.error e
    | Except.ok predictionArr =>
      match npIdx predictionArr 0 with
      | Except.error e => Except.error e
      | Except.ok prediction =>
        match model.predict_proba input_scaled with
        | Except.error e => Except.error e
        | Except.ok probaArr =>
          match npMaxMatrix probaArr with
          | Except.error e => Except.error e
          | Except.ok confidence => Except.ok (prediction, confidence)

end Inference

/-- A Python exception raised by `joblib.load`: a missing file raises
`FileNotFoundError`; a present-but-corrupt file raises some other
exception (e.g. `UnpicklingError`). -/
inductive LoadError where
  | fileNotFound : String → LoadError
  | corrupt : String → LoadError

/-- The module-level artifact loading of `api/main.py` (lines 66–84):
load the preprocessor, then the model, then set the readiness gauge to 1;
`except FileNotFoundError:` sets both artifacts to `None` and the gauge to 0.
Any other exception is uncaught and aborts the import (`Except.error`). -/
def loadArtifacts (loadP : Except LoadError Preprocessor)
    (loadM : Except LoadError Model) (m : Metrics) :
    Except String ((Option Preprocessor × Option Model) × Metrics) :=
  match loadP with
  | Except.error (LoadError.fileNotFound _) =>
      Except.ok ((none, none), { m with modelLoadStatus := 0 })
  | Except.error (LoadError.corrupt e) => Except.error e
  | Except.ok p =>
    match loadM with
    | Except.error (LoadError.fileNotFound _) =>
        Except.ok ((none, none), { m with modelLoadStatus := 0 })
    | Except.error (LoadError.corrupt e) => Except.error e
    | Except.ok mo =>
        Except.ok ((some p, some mo), { m with modelLoadStatus := 1 })

/-- The identity preprocessor, used as a concrete witness artifact. -/
def idPreprocessor : Preprocessor := fun df => Except.ok df

/-- A concrete binary model for witnesses: always predicts class 1, assigning
it probability 7/10. -/
def constModel : Model :=
  ⟨fun _ => Except.ok [1], fun _ => Except.ok [[(3 : ℚ)/10, (7 : ℚ)/10]]⟩

/-- A preprocessor whose transform always raises. -/
def failingPreprocessor : Preprocessor :=
  fun _ => Except.error ("X has 13 features, but StandardScaler is expecting 5")

/-- The example request from the repository documentation. -/
def sampleInput : HeartDiseaseInput :=
  ⟨63, 1, 3, 145, 233, 1, 0, 150, 0, (23 : ℚ)/10, 0, 0, 1⟩

/-- All-zero initial metric state. -/
def initMetrics : Metrics := ⟨[], [], 0, 0, 0, 0, 0⟩

theorem npIdx_ok_of_nonneg {α : Type} (xs : List α) (i : Int) (hi : 0 ≤ i)
    (hlt : i.toNat < xs.length) :
    npIdx xs i = Except.ok (xs.get ⟨i.toNat, hlt⟩) := by
  have hw : npWrap xs.length i = i := by
    unfold npWrap
    omega
  unfold npIdx
  rw [dif_pos]
  · simp only [hw]
  · constructor <;> omega

theorem npIdx_zero_cons {α : Type} (a : α) (l : List α) :
    npIdx (a :: l) 0 = Except.ok a := by
  have h := npIdx_ok_of_nonneg (a :: l) 0 le_rfl (by simp)
  simpa using h

theorem npIdx_mem {α : Type} (xs : List α) (i : Int) (c : α)
    (h : npIdx xs i = Except.ok c) : c ∈ xs := by
  unfold npIdx at h
  split at h
  · cases h
    exact List.get_mem xs _ _
  · cases h

theorem predictBody_activeRequests (p : Option Preprocessor) (mo : Option Model)
    (d : HeartDiseaseInput) (m : Metrics) :
    ((Api.predictBody p mo d m).2.1).activeRequests = m.activeRequests := by
  cases mo with
  | none => cases p <;> rfl
  | some mo =>
    cases p with
    | none => rfl
    | some pre =>
      simp only [Api.predictBody]
      split
      · rfl
      · split
        · rfl
        · split
          · rfl
          · split <;> rfl

theorem predictBody_response_independent (p : Option Preprocessor)
    (mo : Option Model) (d : HeartDiseaseInput) (m1 m2 : Metrics) :
    (Api.predictBody p mo d m1).1 = (Api.predictBody p mo d m2).1 := by
  cases mo with
  | none => cases p <;> rfl
  | some mo =>
    cases p with
    | none => rfl
    | some pre =>
      simp only [Api.predictBody]
      cases hx : pre [d.toRow] with
      | error e => rfl
      | ok x =>
        dsimp only
        cases hp : mo.predict x with
        | error e => rfl
        | ok pred =>
          dsimp only
          cases hq : mo.predict_proba x with
          | error e => rfl
          | ok proba =>
            dsimp only
            cases hi : Api.inferFromArrays pred proba with
            | error e => rfl
            | ok pc =>
              obtain ⟨r, c⟩ := pc
              rfl

theorem predictBody_shape (p : Option Preprocessor) (mo : Option Model)
    (d : HeartDiseaseInput) (m : Metrics) :
    (Api.predictBody p mo d m).1.1 = 200 ∧
    (keysOf (Api.predictBody p mo d m).1.2 =
        ["prediction", "prediction_label", "confidence"] ∨
      keysOf (Api.predictBody p mo d m).1.2 = ["error"]) := by
  cases mo with
  | none => cases p <;> exact ⟨rfl, Or.inr rfl⟩
  | some mo =>
    cases p with
    | none => exact ⟨rfl, Or.inr rfl⟩
    | some pre =>
      simp only [Api.predictBody]
      cases hx : pre [d.toRow] with
      | error e => exact ⟨rfl, Or.inr rfl⟩
      | ok x =>
        dsimp only
        cases hp : mo.predict x with
        | error e => exact ⟨rfl, Or.inr rfl⟩
        | ok pred =>
          dsimp only
          cases hq : mo.predict_proba x with
          | error e => exact ⟨rfl, Or.inr rfl⟩
          | ok proba =>
            dsimp only
            cases hi : Api.inferFromArrays pred proba with
            | error e => exact ⟨rfl, Or.inr rfl⟩
            | ok pc =>
              obtain ⟨r, c⟩ := pc
              exact ⟨rfl, Or.inl rfl⟩

/-- C2: for every valid 13-field input, the `/predict` handler answers with
HTTP status 200 on every path, and the body is exactly the success shape
`{prediction, prediction_label, confidence}` or exactly the failure shape
`{error}` — never both and never neither. -/
theorem predict_response_shape (preprocessor : Option Preprocessor)
    (model : Option Model) (data : HeartDiseaseInput) (m : Metrics) :
    (Api.predict preprocessor model data m).1.1 = 200 ∧
    (keysOf (Api.predict preprocessor model data m).1.2 =
        ["prediction", "prediction_label", "confidence"] ∨
      keysOf (Api.predict preprocessor model data m).1.2 = ["error"]) := by
  simp only [Api.predict]
  exact predictBody_shape preprocessor model data _

/-- C3: on every exit path of the `/predict` handler the in-flight gauge is
incremented once on entry and decremented once in the `finally:`, so its net
change over the request is zero. -/
theorem active_requests_net_zero (preprocessor : Option Preprocessor)
    (model : Option Model) (data : HeartDiseaseInput) (m : Metrics) :
    ((Api.predict preprocessor model data m).2.1).activeRequests =
      m.activeRequests := by
  have h := predictBody_activeRequests preprocessor model data
    { m with activeRequests := m.activeRequests + 1 }
  simp only [Api.predict]
  dsimp only at h ⊢
  omega

/-- C5: with both artifacts unset, every valid call returns exactly the
model-not-loaded error payload, increments the `model_not_loaded` error
counter once, leaves every other metric unchanged, and performs no artifact
call at all. -/
theorem predict_not_loaded_response (data : HeartDiseaseInput) (m : Metrics) :
    Api.predict none none data m =
      ((200, [("error", JValue.str
          ("Model or preprocessor not loaded. Please check the server logs."))]),
       { m with errModelNotLoaded := m.errModelNotLoaded + 1 }, []) := by
  simp [Api.predict, Api.predictBody]

/-- C9: the `/predict` handler is deterministic and noninterfering with
respect to metric state — the same request against the same artifacts yields
the same response payload whatever the initial counters, histogram and
gauges are. -/
theorem predict_metrics_noninterference (preprocessor : Option Preprocessor)
    (model : Option Model) (data : HeartDiseaseInput) (m1 m2 : Metrics) :
    (Api.predict preprocessor model data m1).1 =
      (Api.predict preprocessor model data m2).1 := by
  simp only [Api.predict]
  exact predictBody_response_independent preprocessor model data _ _

/-- The success payload of `api/main.py` lines 128–132. -/
def successDict (r : Int) (c : ℚ) : Dict :=
  [("prediction", JValue.str
      (if r = 1 then ("Heart Disease") else ("No Heart Disease"))),
   ("prediction_label", JValue.int r),
   ("confidence", JValue.rat c)]

theorem predict_of_infer_ok (pre : Preprocessor) (mo : Model)
    (data : HeartDiseaseInput) (m : Metrics) (x : List (List ℚ))
    (pred : List Int) (proba : List (List ℚ)) (r : Int) (c : ℚ)
    (hx : pre [data.toRow] = Except.ok x)
    (hp : mo.predict x = Except.ok pred)
    (hq : mo.predict_proba x = Except.ok proba)
    (hi : Api.inferFromArrays pred proba = Except.ok (r, c)) :
    Api.predict (some pre) (some mo) data m =
      ((200, successDict r c),
       { m with
          predictionCounter := toString r :: m.predictionCounter,
          confidenceObs := c :: m.confidenceObs },
       [ArtifactCall.transformCall, ArtifactCall.predictCall,
        ArtifactCall.probaCall]) := by
  simp [Api.predict, Api.predictBody, hx, hp, hq, hi, successDict]

theorem predict_paths (p : Option Preprocessor) (mo : Option Model)
    (d : HeartDiseaseInput) (m : Metrics) :
    ((∃ e, (Api.predict p mo d m).1.2 = [("error", JValue.str e)]) ∧
      ((Api.predict p mo d m).2.1).predictionCounter = m.predictionCounter ∧
      ((Api.predict p mo d m).2.1).confidenceObs = m.confidenceObs) ∨
    (∃ r c, (Api.predict p mo d m).1.2 = successDict r c ∧
      ((Api.predict p mo d m).2.1).predictionCounter =
        toString r :: m.predictionCounter ∧
      ((Api.predict p mo d m).2.1).confidenceObs = c :: m.confidenceObs) := by
  simp only [Api.predict]
  cases mo with
  | none => cases p <;> exact Or.inl ⟨⟨_, rfl⟩, rfl, rfl⟩
  | some mo =>
    cases p with
    | none => exact Or.inl ⟨⟨_, rfl⟩, rfl, rfl⟩
    | some pre =>
      simp only [Api.predictBody]
      cases hx : pre [d.toRow] with
      | error e => exact Or.inl ⟨⟨_, rfl⟩, rfl, rfl⟩
      | ok x =>
        dsimp only
        cases hp : mo.predict x with
        | error e => exact Or.inl ⟨⟨_, rfl⟩, rfl, rfl⟩
        | ok pred =>
          dsimp only
          cases hq : mo.predict_proba x with
          | error e => exact Or.inl ⟨⟨_, rfl⟩, rfl, rfl⟩
          | ok proba =>
            dsimp only
            cases hi : Api.inferFromArrays pred proba with
            | error e => exact Or.inl ⟨⟨_, rfl⟩, rfl, rfl⟩
            | ok pc =>
              obtain ⟨r, c⟩ := pc
              exact Or.inr ⟨r, c, rfl, rfl, rfl⟩

/-- C1: whenever transform, `predict` and `predict_proba` all succeed and the
predicted class is an in-range index into the first probability row, the
`/predict` response is the success payload whose `confidence` is exactly
`probabilities[predicted_class_index]` taken from the first row of
`predict_proba`. -/
theorem confidence_eq_predicted_class_probability
    (pre : Preprocessor) (mo : Model) (data : HeartDiseaseInput) (m : Metrics)
    (x : List (List ℚ)) (pred : List Int) (proba : List (List ℚ))
    (row : List ℚ) (r : Int)
    (hx : pre [data.toRow] = Except.ok x)
    (hp : mo.predict x = Except.ok pred)
    (hq : mo.predict_proba x = Except.ok proba)
    (hr : npIdx pred 0 = Except.ok r)
    (hrow : npIdx proba 0 = Except.ok row)
    (hnn : 0 ≤ r) (hlt : r.toNat < row.length) :
    (Api.predict (some pre) (some mo) data m).1.2 =
      successDict r (row.get ⟨r.toNat, hlt⟩) := by
  have hi : Api.inferFromArrays pred proba =
      Except.ok (r, row.get ⟨r.toNat, hlt⟩) := by
    simp only [Api.inferFromArrays, hr, hrow, npIdx_ok_of_nonneg row r hnn hlt]
  rw [predict_of_infer_ok pre mo data m x pred proba r _ hx hp hq hi]

/-- Witness for C1 at concrete artifacts: the identity preprocessor and a
model assigning probability 7/10 to its predicted class 1. -/
theorem confidence_eq_predicted_class_probability_witness :
    (Api.predict (some idPreprocessor) (some constModel) sampleInput
        initMetrics).1.2 =
      successDict 1 ((7 : ℚ)/10) := by
  have h := confidence_eq_predicted_class_probability idPreprocessor constModel
    sampleInput initMetrics [sampleInput.toRow] [1]
    [[(3 : ℚ)/10, (7 : ℚ)/10]] [(3 : ℚ)/10, (7 : ℚ)/10] 1 rfl rfl rfl
    (npIdx_zero_cons 1 []) (npIdx_zero_cons [(3 : ℚ)/10, (7 : ℚ)/10] [])
    (by decide) (by decide)
  simpa using h

/-- C6: when the preprocessor transform raises, the handler increments the
`preprocessing_error` counter exactly once, returns the error payload carrying
the exception message, performs no model call (the ghost trace holds only the
transform call), and returns normally. -/
theorem preprocessing_error_response (pre : Preprocessor) (mo : Model)
    (data : HeartDiseaseInput) (m : Metrics) (e : String)
    (h : pre [data.toRow] = Except.error e) :
    Api.predict (some pre) (some mo) data m =
      ((200, [("error",
          JValue.str ("Error during data preprocessing: " ++ e))]),
       { m with errPreprocessing := m.errPreprocessing + 1 },
       [ArtifactCall.transformCall]) := by
  simp [Api.predict, Api.predictBody, h]

/-- Witness for C6 at a concrete always-raising preprocessor. -/
theorem preprocessing_error_response_witness :
    Api.predict (some failingPreprocessor) (some constModel) sampleInput
        initMetrics =
      ((200, [("error",
          JValue.str ("Error during data preprocessing: " ++
            "X has 13 features, but StandardScaler is expecting 5"))]),
       ⟨[], [], 0, 1, 0, 0, 0⟩,
       [ArtifactCall.transformCall]) := by
  have h := preprocessing_error_response failingPreprocessor constModel
    sampleInput initMetrics
    ("X has 13 features, but StandardScaler is expecting 5") rfl
  simpa [initMetrics] using h

/-- C8: in every successful response whose label lies in the binary classes
0/1 declared for `PredictionResult`, `prediction_label == 1` holds exactly
when `prediction` is "Heart Disease", and `prediction_label == 0` exactly
when it is "No Heart Disease". -/
theorem prediction_label_iff_string (preprocessor : Option Preprocessor)
    (model : Option Model) (data : HeartDiseaseInput) (m : Metrics)
    (l : Int) (s : String)
    (hl : List.lookup ("prediction_label")
        (Api.predict preprocessor model data m).1.2 = some (JValue.int l))
    (hs : List.lookup ("prediction")
        (Api.predict preprocessor model data m).1.2 = some (JValue.str s))
    (hbin : l = 0 ∨ l = 1) :
    (l = 1 ↔ s = "Heart Disease") ∧ (l = 0 ↔ s = "No Heart Disease") := by
  rcases predict_paths preprocessor model data m with
    ⟨⟨e, he⟩, -, -⟩ | ⟨r, c, hd, -, -⟩
  · rw [he] at hl
    simp [List.lookup] at hl
  · rw [hd] at hl hs
    simp [successDict, List.lookup] at hl hs
    subst hl
    rcases hbin with rfl | rfl
    · rw [if_neg (by decide)] at hs
      subst hs
      constructor <;> simp
    · rw [if_pos rfl] at hs
      subst hs
      constructor <;> simp

/-- Witness for C8: a concrete successful call whose label is 1 and whose
string is "Heart Disease". -/
theorem prediction_label_iff_string_witness :
    ((1 : Int) = 1 ↔ "Heart Disease" = "Heart Disease") ∧
    ((1 : Int) = 0 ↔ "Heart Disease" = "No Heart Disease") :=
  prediction_label_iff_string (some idPreprocessor) (some constModel)
    sampleInput initMetrics 1 ("Heart Disease") (by decide) (by decide)
    (by decide)

/-- C10: the label-partitioned prediction counter and the confidence
histogram are each recorded exactly once when the handler returns the
success payload, and are untouched when it returns the error payload. -/
theorem success_metrics_updated_once (preprocessor : Option Preprocessor)
    (model : Option Model) (data : HeartDiseaseInput) (m : Metrics) :
    (keysOf (Api.predict preprocessor model data m).1.2 =
        ["prediction", "prediction_label", "confidence"] →
      ((Api.predict preprocessor model data m).2.1).predictionCounter.length =
          m.predictionCounter.length + 1 ∧
      ((Api.predict preprocessor model data m).2.1).confidenceObs.length =
          m.confidenceObs.length + 1) ∧
    (keysOf (Api.predict preprocessor model data m).1.2 = ["error"] →
      ((Api.predict preprocessor model data m).2.1).predictionCounter =
          m.predictionCounter ∧
      ((Api.predict preprocessor model data m).2.1).confidenceObs =
          m.confidenceObs) := by
  rcases predict_paths preprocessor model data m with
    ⟨⟨e, he⟩, hc, ho⟩ | ⟨r, c, hd, hc, ho⟩
  · refine ⟨fun hk => ?_, fun _ => ⟨hc, ho⟩⟩
    rw [he] at hk
    simp [keysOf] at hk
  · refine ⟨fun _ => ?_, fun hk => ?_⟩
    · rw [hc, ho]
      simp
    · rw [hd] at hk
      simp [keysOf, successDict] at hk

/-- Witness for C10: a concrete successful call records one prediction label
and one confidence observation. -/
theorem success_metrics_updated_once_witness :
    ((Api.predict (some idPreprocessor) (some constModel) sampleInput
        initMetrics).2.1).predictionCounter.length =
      initMetrics.predictionCounter.length + 1 ∧
    ((Api.predict (some idPreprocessor) (some constModel) sampleInput
        initMetrics).2.1).confidenceObs.length =
      initMetrics.confidenceObs.length + 1 :=
  (success_metrics_updated_once (some idPreprocessor) (some constModel)
      sampleInput initMetrics).1 (by decide)

/-- C4 counterexample: a present-but-corrupt artifact raises an exception
other than `FileNotFoundError`, which the `except` clause of the loader does not
catch — startup aborts instead of setting readiness to 0 and continuing. -/
theorem loader_corrupt_artifact_crashes :
    loadArtifacts
        (Except.error (LoadError.corrupt ("invalid load key, chr(0)")))
        (Except.ok constModel) initMetrics =
      Except.error ("invalid load key, chr(0)") := rfl

/-- C4 amended: for a missing artifact file — the preprocessor, or the model
after the preprocessor loaded — `joblib.load` raises `FileNotFoundError`,
which the loader catches: it sets the readiness gauge to 0, leaves both
artifacts unset, and the process continues to start.  (The exception raised
by a corrupt file is not caught and aborts startup.) -/
theorem loader_missing_file_nonfatal (loadP : Except LoadError Preprocessor)
    (loadM : Except LoadError Model) (m : Metrics) (e : String)
    (h : loadP = Except.error (LoadError.fileNotFound e) ∨
         ∃ p, loadP = Except.ok p ∧
              loadM = Except.error (LoadError.fileNotFound e)) :
    loadArtifacts loadP loadM m =
      Except.ok ((none, none), { m with modelLoadStatus := 0 }) := by
  rcases h with h | ⟨p, hp, hm⟩
  · rw [h]
    rfl
  · rw [hp, hm]
    rfl

/-- Witness for the amended C4 at a concrete missing preprocessor file. -/
theorem loader_missing_file_nonfatal_witness :
    loadArtifacts
        (Except.error (LoadError.fileNotFound
          ("No such file or directory: models/preprocessor.joblib")))
        (Except.ok constModel) initMetrics =
      Except.ok ((none, none), { initMetrics with modelLoadStatus := 0 }) :=
  loader_missing_file_nonfatal _ _ initMetrics
    ("No such file or directory: models/preprocessor.joblib") (Or.inl rfl)

/-- C7: for a binary model — a two-entry probability row summing to 1 —
whose predicted class is the argmax of that row, the confidence that
`api/main.py` computes by indexing `prediction_proba[0]` at the predicted
class equals the confidence `src/inference.py` computes as the unconditional
`.max()` of the probability matrix, on the same input. -/
theorem confidence_index_eq_max (mo : Model) (scaler : Preprocessor)
    (input_data : List ℚ) (x : List (List ℚ)) (pred : List Int)
    (row : List ℚ) (r : Int) (c : ℚ)
    (hx : scaler [input_data] = Except.ok x)
    (hp : mo.predict x = Except.ok pred)
    (hq : mo.predict_proba x = Except.ok [row])
    (hr : npIdx pred 0 = Except.ok r)
    (hbin : row.length = 2)
    (hsum : row.sum = 1)
    (hc : npIdx row r = Except.ok c)
    (hmax : ∀ q ∈ row, q ≤ c) :
    Api.inferFromArrays pred [row] = Except.ok (r, c) ∧
    Inference.predict mo scaler input_data = Except.ok (r, c) := by
  rw [List.length_eq_two] at hbin
  obtain ⟨a, b, rfl⟩ := hbin
  have ha : a ≤ c := hmax a (by simp)
  have hb : b ≤ c := hmax b (by simp)
  have hmem : c ∈ [a, b] := npIdx_mem [a, b] r c hc
  have hmaxeq : max a b = c := by
    rcases List.mem_pair.mp hmem with rfl | rfl
    · exact max_eq_left hb
    · exact max_eq_right ha
  constructor
  · simp only [Api.inferFromArrays, hr, npIdx_zero_cons, hc]
  · simp only [Inference.predict, hx, hp, hr, hq]
    rw [show npMaxMatrix [[a, b]] = Except.ok (max a b) from rfl, hmaxeq]

/-- Witness for C7 at a concrete binary model with probabilities
3/10 and 7/10 and predicted class 1. -/
theorem confidence_index_eq_max_witness :
    Api.inferFromArrays [1] [[(3 : ℚ)/10, (7 : ℚ)/10]] =
        Except.ok (1, (7 : ℚ)/10) ∧
    Inference.predict constModel idPreprocessor [0] =
        Except.ok (1, (7 : ℚ)/10) :=
  confidence_index_eq_max constModel idPreprocessor [0] [[0]] [1]
    [(3 : ℚ)/10, (7 : ℚ)/10] 1 ((7 : ℚ)/10) rfl rfl rfl
    (npIdx_zero_cons 1 []) rfl (by norm_num)
    (npIdx_ok_of_nonneg [(3 : ℚ)/10, (7 : ℚ)/10] 1 (by decide) (by decide))
    (by
      intro q hq
      rcases List.mem_pair.mp hq with rfl | rfl <;> norm_num)
